import Mathlib

/-
  Verification development for the StateFlow energy-optimization pipeline.

  Shallow embedding of the four core components:
  - Decision Engine            (src/ai/gemini-analyzer.ts)
  - Aggregator                 (src/steps/event/event.sensor.process.step.ts)
  - Lifecycle Orchestrator     (src/steps/workflow/workflow.energy.optimize.step.ts, Phase-5 variant)
  - Executor                   (src/steps/job/job.energy.execute.step.ts)

  Modelling conventions:
  - JavaScript numbers are modelled as rationals (ℚ); the embedding is faithful
    on the domain where no division by zero occurs (thresholds are positive).
  - The wall clock (Date.now(), new Date().toISOString()) is passed in as an
    explicit parameter.
  - Asynchronous handlers are modelled as pure functions from the observed
    store contents to the ordered list of store writes / event emissions they
    perform; sequential processing threads the store through these functions.
  - The AI network call is modelled by an abstract outcome: either a failure
    (absent credential, network error, unparseable response) or a parsed JSON
    object with optional fields.
-/

namespace StateFlow

/-! ## Decision Engine (src/ai/gemini-analyzer.ts) -/

/-- Provenance tag on a decision: produced by the AI path or the deterministic
fallback. -/
inductive Source where
  | ai
  | fallback
deriving Repr, DecidableEq

/-- Input to the analyzer, `AnalysisInput` in the source. -/
structure AnalysisInput where
  totalConsumption : ℚ
  threshold : ℚ
  excessAmount : ℚ
  date : String
deriving Repr, DecidableEq

/-- Decision record produced by the analyzer, `AIDecision` in the source. -/
structure AIDecision where
  action : String
  targetWindow : String
  expectedSavingsPercent : ℚ
  confidence : ℚ
  reasoning : String
  source : Source
  model : Option String
deriving Repr, DecidableEq

/-- Model of JavaScript `x.toFixed(1)`: round to one decimal digit and render. -/
def toFixed1 (q : ℚ) : String :=
  let n : ℤ := round (q * 10)
  let sign : String := if n < 0 then "-" else ""
  let m : ℕ := n.natAbs
  sign ++ toString (m / 10) ++ "." ++ toString (m % 10)

/-- `excessPercent = (excessAmount / threshold) * 100` as computed by both
`analyzeWithGemini` and `fallbackAnalysis`. -/
def excessPercent (input : AnalysisInput) : ℚ :=
  input.excessAmount / input.threshold * 100

/-- Deterministic fallback when AI is unavailable (`fallbackAnalysis` in the
source). -/
def fallbackAnalysis (input : AnalysisInput) : AIDecision :=
  let ep := excessPercent input
  if ep > 20 then
    { action := "SHIFT_LOAD"
      targetWindow := "02:00-05:00"
      expectedSavingsPercent := min 25 ep
      confidence := 85/100
      reasoning := "High excess (" ++ toFixed1 ep ++ "%) - recommending load shift to off-peak hours"
      source := Source.fallback
      model := none }
  else if ep > 10 then
    { action := "REDUCE_CONSUMPTION"
      targetWindow := "18:00-22:00"
      expectedSavingsPercent := min 15 ep
      confidence := 78/100
      reasoning := "Moderate excess (" ++ toFixed1 ep ++ "%) - recommending consumption reduction during peak"
      source := Source.fallback
      model := none }
  else
    { action := "OPTIMIZE_SCHEDULING"
      targetWindow := "12:00-16:00"
      expectedSavingsPercent := min 10 ep
      confidence := 72/100
      reasoning := "Minor excess (" ++ toFixed1 ep ++ "%) - recommending schedule optimization"
      source := Source.fallback
      model := none }

/-- A successfully JSON-parsed AI response; each field may be absent. -/
structure ParsedResponse where
  action : Option String
  targetWindow : Option String
  expectedSavingsPercent : Option ℚ
  confidence : Option ℚ
  reasoning : Option String
deriving Repr, DecidableEq

/-- JavaScript truthiness of an optional string (`!x` is true for absent and
for the empty string). -/
def truthyStr : Option String → Bool
  | none => false
  | some s => s != ""

/-- JavaScript `x || d` on an optional number: absent or zero falls back to
the default. -/
def orElseNum (x : Option ℚ) (d : ℚ) : ℚ :=
  match x with
  | none => d
  | some v => if v = 0 then d else v

/-- JavaScript `x || d` on an optional string: absent or empty falls back to
the default. -/
def orElseStr (x : Option String) (d : String) : String :=
  match x with
  | none => d
  | some s => if s = "" then d else s

/-- The validation performed on a parsed response:
`if (!parsed.action || !parsed.targetWindow || parsed.confidence === undefined) throw`. -/
def validResponse (p : ParsedResponse) : Bool :=
  truthyStr p.action && truthyStr p.targetWindow && p.confidence.isSome

/-- Abstract outcome of the Gemini call: `failure` covers an absent credential,
a network error and an unparseable response body; `response` is a successfully
parsed JSON object. -/
inductive GeminiOutcome where
  | failure (msg : String)
  | response (p : ParsedResponse)
deriving Repr, DecidableEq

/-- The AI path succeeded: the call returned a parseable response that passes
the structural validation. -/
def aiPathSucceeded : GeminiOutcome → Prop
  | GeminiOutcome.failure _ => False
  | GeminiOutcome.response p => validResponse p = true

instance : DecidablePred aiPathSucceeded := by
  intro o
  cases o with
  | failure m => exact isFalse (fun h => h)
  | response p => exact inferInstanceAs (Decidable (validResponse p = true))

/-- `analyzeWithGemini` from the source: try the AI path; any thrown error
(absent credential, network, parse, failed validation) is caught and falls
back to `fallbackAnalysis`. -/
def analyzeWithGemini (input : AnalysisInput) (outcome : GeminiOutcome) : AIDecision :=
  match outcome with
  | GeminiOutcome.failure _ => fallbackAnalysis input
  | GeminiOutcome.response p =>
    if validResponse p then
      { action := p.action.getD ""
        targetWindow := p.targetWindow.getD ""
        expectedSavingsPercent := min 30 (max 0 (orElseNum p.expectedSavingsPercent 10))
        confidence := min 1 (max 0 (p.confidence.getD 0))
        reasoning := orElseStr p.reasoning "AI-generated recommendation"
        source := Source.ai
        model := some "gemini-3-flash-preview" }
    else fallbackAnalysis input

/-- The three remediation actions enumerated by the spec. -/
@[reducible] def knownAction (s : String) : Prop :=
  s = "SHIFT_LOAD" ∨ s = "REDUCE_CONSUMPTION" ∨ s = "OPTIMIZE_SCHEDULING"

/-! ## Aggregator (src/steps/event/event.sensor.process.step.ts) -/

/-- `UsageDailyState` from the source constants. -/
structure DailyUsage where
  date : String
  totalConsumption : ℚ
  peakUsage : ℚ
  avgUsage : ℚ
  readingCount : ℕ
  readings : List ℚ
deriving Repr, DecidableEq

/-- The thresholds part of `UserPreferences`. -/
structure Thresholds where
  dailyMax : ℚ
  peakHourLimit : ℚ
deriving Repr, DecidableEq

/-- `DEFAULT_THRESHOLDS` from the source. -/
def DEFAULT_THRESHOLDS : Thresholds := { dailyMax := 100, peakHourLimit := 50 }

/-- The slice of the key/value store the aggregator touches for one date:
the `usage/daily/date` record, the per-day guard flag
`usage/daily/date/optimizationTriggered`, and the `user/preferences`
thresholds. `none` models an absent key. -/
structure AggStore where
  dailyUsage : Option DailyUsage
  optimizationTriggered : Option Bool
  userPrefs : Option Thresholds
deriving Repr, DecidableEq

/-- The handler input for `event.sensor.process`. -/
structure SensorInput where
  sensorId : String
  value : ℚ
  unit : String
  type : String
  timestamp : String
  date : String
deriving Repr, DecidableEq

/-- The payload of an `optimization.required` event. -/
structure OptimizationRequired where
  optimizationId : String
  date : String
  totalConsumption : ℚ
  threshold : ℚ
  excessAmount : ℚ
  triggeredAt : String
deriving Repr, DecidableEq

/-- An observable operation of the aggregator handler, in program order:
a write of the daily usage record, an emission of `optimization.required`,
or a write of the per-day guard flag. -/
inductive AggOp where
  | setDailyUsage (u : DailyUsage)
  | emitOptimizationRequired (e : OptimizationRequired)
  | setGuard (b : Bool)
deriving Repr, DecidableEq

/-- The fresh record made when no daily usage exists for the date yet. -/
def initUsage (date : String) : DailyUsage :=
  { date := date
    totalConsumption := 0
    peakUsage := 0
    avgUsage := 0
    readingCount := 0
    readings := [] }

/-- STEP 2 of the handler: push the value and recompute the aggregates.
`totalConsumption` is recomputed as `readings.reduce((sum, v) => sum + v, 0)`
over the full list. -/
def updateUsage (u : DailyUsage) (value : ℚ) : DailyUsage :=
  let readings := u.readings ++ [value]
  let total := readings.foldl (· + ·) 0
  { u with
    readings := readings
    readingCount := readings.length
    totalConsumption := total
    peakUsage := max u.peakUsage value
    avgUsage := total / (readings.length : ℚ) }

/-- JavaScript truthiness of the stored guard flag (`if (alreadyTriggered)`).
An absent key reads as `null`, which is falsy. -/
def guardTruthy (s : AggStore) : Bool :=
  s.optimizationTriggered.getD false

/-- The effective thresholds: `userPrefs?.thresholds ?? DEFAULT_THRESHOLDS`. -/
def effectiveThresholds (s : AggStore) : Thresholds :=
  s.userPrefs.getD DEFAULT_THRESHOLDS

/-- The `event.sensor.process` handler as the ordered list of store writes and
emissions it performs, given the store contents it observes. `nowMs` models
`Date.now()` (used in the generated identifier) and `nowIso` models
`new Date().toISOString()` (the trigger timestamp). -/
def processReading (s : AggStore) (input : SensorInput) (nowMs : ℕ) (nowIso : String) :
    List AggOp :=
  let usage := updateUsage (s.dailyUsage.getD (initUsage input.date)) input.value
  let thresholds := effectiveThresholds s
  let thresholdExceeded := usage.totalConsumption > thresholds.dailyMax
  if thresholdExceeded then
    if guardTruthy s then
      [AggOp.setDailyUsage usage]
    else
      [AggOp.setDailyUsage usage,
       AggOp.emitOptimizationRequired
         { optimizationId := "opt-" ++ input.date ++ "-" ++ toString nowMs
           date := input.date
           totalConsumption := usage.totalConsumption
           threshold := thresholds.dailyMax
           excessAmount := usage.totalConsumption - thresholds.dailyMax
           triggeredAt := nowIso },
       AggOp.setGuard true]
  else
    [AggOp.setDailyUsage usage]

/-- Effect of one operation on the per-date store slice. -/
def applyOp (s : AggStore) : AggOp → AggStore
  | AggOp.setDailyUsage u => { s with dailyUsage := some u }
  | AggOp.emitOptimizationRequired _ => s
  | AggOp.setGuard b => { s with optimizationTriggered := some b }

/-- Effect of a list of operations, applied in order. -/
def applyOps (s : AggStore) : List AggOp → AggStore
  | [] => s
  | op :: rest => applyOps (applyOp s op) rest

/-- The emissions contained in an operation trace, in order. -/
def emissionsOf : List AggOp → List OptimizationRequired
  | [] => []
  | AggOp.emitOptimizationRequired e :: rest => e :: emissionsOf rest
  | _ :: rest => emissionsOf rest

/-- Clock data for one handler invocation: `Date.now()` and the ISO timestamp. -/
structure Clock where
  nowMs : ℕ
  nowIso : String
deriving Repr, DecidableEq

/-- Store after one handler invocation. -/
def stepStore (s : AggStore) (input : SensorInput) (c : Clock) : AggStore :=
  applyOps s (processReading s input c.nowMs c.nowIso)

/-- Emissions of one handler invocation. -/
def stepEmits (s : AggStore) (input : SensorInput) (c : Clock) : List OptimizationRequired :=
  emissionsOf (processReading s input c.nowMs c.nowIso)

/-- Store after sequentially processing a list of readings for the date. -/
def runStore (s : AggStore) : List (SensorInput × Clock) → AggStore
  | [] => s
  | (input, c) :: rest => runStore (stepStore s input c) rest

/-- All emissions of sequentially processing a list of readings for the date. -/
def runEmits (s : AggStore) : List (SensorInput × Clock) → List OptimizationRequired
  | [] => []
  | (input, c) :: rest => stepEmits s input c ++ runEmits (stepStore s input c) rest

/-- The store slice of a fresh day: no usage record, no guard flag. The
preferences may or may not be set. -/
def freshStore (prefs : Option Thresholds) : AggStore :=
  { dailyUsage := none, optimizationTriggered := none, userPrefs := prefs }

/-- A trace sets the guard durably before any emission: every emission in the
trace is preceded by a `setGuard true` operation. -/
def guardSetBeforeEmit (ops : List AggOp) : Prop :=
  ∀ j e, ops.get? j = some (AggOp.emitOptimizationRequired e) →
    ∃ i, i < j ∧ ops.get? i = some (AggOp.setGuard true)

/-! ## Lifecycle state (src/constants.ts, workflow step, job step) -/

/-- `OPTIMIZATION_STATUS` from the source constants. -/
inductive OptStatus where
  | RECEIVED
  | ANALYZING
  | DECIDED
  | EXECUTING
  | COMPLETED
  | FAILED
deriving Repr, DecidableEq

/-- Position of a status in the forward order; the two terminal statuses share
the final rank. -/
def OptStatus.rank : OptStatus → ℕ
  | OptStatus.RECEIVED => 0
  | OptStatus.ANALYZING => 1
  | OptStatus.DECIDED => 2
  | OptStatus.EXECUTING => 3
  | OptStatus.COMPLETED => 4
  | OptStatus.FAILED => 4

/-- A status is terminal when it is COMPLETED or FAILED. -/
def OptStatus.isTerminal : OptStatus → Bool
  | OptStatus.COMPLETED => true
  | OptStatus.FAILED => true
  | _ => false

/-- `OptimizationDecision` from the source constants (the workflow always sets
the reasoning field). -/
structure OptimizationDecision where
  action : String
  targetWindow : String
  expectedSavingsPercent : ℚ
  confidence : ℚ
  reasoning : String
deriving Repr, DecidableEq

/-- `OptimizationResult` from the source constants. -/
structure OptimizationResult where
  success : Bool
  appliedAt : String
  details : String
deriving Repr, DecidableEq

/-- `OptimizationState` from the source constants; optional fields are
modelled with `Option`. -/
structure OptimizationState where
  id : String
  status : OptStatus
  triggeredAt : String
  decision : Option OptimizationDecision
  executionResult : Option OptimizationResult
  completedAt : Option String
deriving Repr, DecidableEq

/-- Projection of an analyzer decision onto the persisted decision shape, as
the workflow step builds it field by field. -/
def toDecision (d : AIDecision) : OptimizationDecision :=
  { action := d.action
    targetWindow := d.targetWindow
    expectedSavingsPercent := d.expectedSavingsPercent
    confidence := d.confidence
    reasoning := d.reasoning }

/-! ## Lifecycle Orchestrator (workflow.energy.optimize, Phase-5 variant) -/

/-- First write of the orchestrator: status RECEIVED. -/
def receivedState (req : OptimizationRequired) : OptimizationState :=
  { id := req.optimizationId
    status := OptStatus.RECEIVED
    triggeredAt := req.triggeredAt
    decision := none
    executionResult := none
    completedAt := none }

/-- Second write: status ANALYZING (same record, status mutated). -/
def analyzingState (req : OptimizationRequired) : OptimizationState :=
  { receivedState req with status := OptStatus.ANALYZING }

/-- The decision the orchestrator obtains from `analyzeWithGemini` for the
request, given the abstract AI outcome. -/
def orchestratorDecision (req : OptimizationRequired) (ai : GeminiOutcome) :
    OptimizationDecision :=
  toDecision (analyzeWithGemini
    { totalConsumption := req.totalConsumption
      threshold := req.threshold
      excessAmount := req.excessAmount
      date := req.date } ai)

/-- Third write: status DECIDED with the decision attached. -/
def decidedState (req : OptimizationRequired) (ai : GeminiOutcome) : OptimizationState :=
  { receivedState req with
    status := OptStatus.DECIDED
    decision := some (orchestratorDecision req ai) }

/-- Fourth write: status EXECUTING, after which the orchestrator emits the
execution request and ends. -/
def executingState (req : OptimizationRequired) (ai : GeminiOutcome) : OptimizationState :=
  { decidedState req ai with status := OptStatus.EXECUTING }

/-- The sequence of `optimizations/id` writes performed by one invocation of
the orchestrator handler, in program order. -/
def orchestratorWrites (req : OptimizationRequired) (ai : GeminiOutcome) :
    List OptimizationState :=
  [receivedState req, analyzingState req, decidedState req ai, executingState req ai]

/-! ## Executor (job.energy.execute) -/

/-- Abstract outcome of the actuation attempt inside the `try` block: it either
returns normally at time `now` or raises with an error message at time `now`.
(The source's simulated actuation always succeeds; its `catch` branch handles
runtime failures such as timeouts.) -/
inductive ActuationOutcome where
  | succeeds (now : String)
  | fails (errMsg : String) (now : String)
deriving Repr, DecidableEq

/-- `executeOptimization` from the source: the successful actuation result. -/
def executeOptimization (decision : OptimizationDecision) (now : String) :
    OptimizationResult :=
  { success := true
    appliedAt := now
    details := "Applied " ++ decision.action ++ " optimization for window " ++
      decision.targetWindow ++ ", expected savings: " ++
      toString decision.expectedSavingsPercent ++ "%" }

/-- The failure result built in the `catch` branch. -/
def failureResult (errMsg : String) (now : String) : OptimizationResult :=
  { success := false
    appliedAt := now
    details := "Execution failed: " ++ errMsg }

/-- Observable effects of one invocation of the executor handler. -/
structure ExecRun where
  write : Option OptimizationState
  actuationAttempts : ℕ
  rethrows : Bool
deriving Repr, DecidableEq

/-- The `job.energy.execute` handler: always attempts the actuation, then reads
the current `optimizations/id` state; if it is present, overwrites it with the
terminal record via object spread (`{ ...currentState, status, completedAt,
executionResult }`); if it is absent, writes nothing. On failure it also
rethrows for the queue's retry mechanism. -/
def executorRun (prev : Option OptimizationState) (decision : OptimizationDecision)
    (outcome : ActuationOutcome) : ExecRun :=
  match outcome with
  | ActuationOutcome.succeeds now =>
    { write := prev.map (fun cur =>
        { cur with
          status := OptStatus.COMPLETED
          completedAt := some now
          executionResult := some (executeOptimization decision now) })
      actuationAttempts := 1
      rethrows := false }
  | ActuationOutcome.fails errMsg now =>
    { write := prev.map (fun cur =>
        { cur with
          status := OptStatus.FAILED
          completedAt := some now
          executionResult := some (failureResult errMsg now) })
      actuationAttempts := 1
      rethrows := true }

/-! ## Sequential delivery runs over one optimization identifier -/

/-- A delivery of one of the two events that write `OptimizationState`:
an `optimization.required` event handled by the orchestrator (with its AI
outcome), or an `execution.requested` event handled by the executor (with its
decision payload and actuation outcome). -/
inductive Delivery where
  | optimizationRequired (req : OptimizationRequired) (ai : GeminiOutcome)
  | executionRequested (decision : OptimizationDecision) (outcome : ActuationOutcome)
deriving Repr, DecidableEq

/-- The stored `OptimizationState` after handling one delivery, given the
stored value the handler observes. -/
def deliveryStore (store : Option OptimizationState) : Delivery → Option OptimizationState
  | Delivery.optimizationRequired req ai => some (executingState req ai)
  | Delivery.executionRequested d outcome =>
    match (executorRun store d outcome).write with
    | none => store
    | some w => some w

/-- The `optimizations/id` writes performed while handling one delivery. -/
def deliveryWrites (store : Option OptimizationState) : Delivery → List OptimizationState
  | Delivery.optimizationRequired req ai => orchestratorWrites req ai
  | Delivery.executionRequested d outcome => ((executorRun store d outcome).write).toList

/-- All `optimizations/id` writes of a sequential run of deliveries, threading
the store (read-after-write consistent). -/
def runWrites (store : Option OptimizationState) : List Delivery → List OptimizationState
  | [] => []
  | dv :: rest => deliveryWrites store dv ++ runWrites (deliveryStore store dv) rest

/-- Field-presence invariant claimed for every stored `OptimizationState`:
decision present iff status is DECIDED or later; executionResult and
completedAt present iff the status is terminal. -/
@[reducible] def presenceOK (w : OptimizationState) : Prop :=
  (w.decision.isSome = true ↔
      (w.status = OptStatus.DECIDED ∨ w.status = OptStatus.EXECUTING ∨
       w.status = OptStatus.COMPLETED ∨ w.status = OptStatus.FAILED)) ∧
  (w.executionResult.isSome = true ↔
      (w.status = OptStatus.COMPLETED ∨ w.status = OptStatus.FAILED)) ∧
  (w.completedAt.isSome = true ↔
      (w.status = OptStatus.COMPLETED ∨ w.status = OptStatus.FAILED))

/-- One write followed by the next never moves backward and never leaves a
terminal status. -/
@[reducible] def stepOK (a b : OptimizationState) : Prop :=
  a.status.rank ≤ b.status.rank ∧ (a.status.isTerminal = true → b.status = a.status)

/-- Every consecutive pair of writes in the sequence satisfies `stepOK`. -/
def forwardOK : List OptimizationState → Prop
  | [] => True
  | [_] => True
  | a :: b :: rest => stepOK a b ∧ forwardOK (b :: rest)

/-- Decidability of `forwardOK` by structural recursion. -/
def forwardOKDec : (l : List OptimizationState) → Decidable (forwardOK l)
  | [] => Decidable.isTrue trivial
  | [_] => Decidable.isTrue trivial
  | a :: b :: rest =>
    @instDecidableAnd (stepOK a b) (forwardOK (b :: rest)) inferInstance
      (forwardOKDec (b :: rest))

instance (l : List OptimizationState) : Decidable (forwardOK l) := forwardOKDec l

/-- The full lifecycle invariant claimed over a write sequence. -/
@[reducible] def lifecycleOK (ws : List OptimizationState) : Prop :=
  forwardOK ws ∧ ∀ w ∈ ws, presenceOK w

/-- A concrete decision payload used in concrete executor scenarios. -/
def decisionSample : OptimizationDecision :=
  { action := "SHIFT_LOAD"
    targetWindow := "02:00-05:00"
    expectedSavingsPercent := 0
    confidence := 1
    reasoning := "r" }

/-- A concrete stored state that has already reached the COMPLETED terminal
status, with its original terminal result applied at time "t1". -/
def completedSample : OptimizationState :=
  { id := "opt-1"
    status := OptStatus.COMPLETED
    triggeredAt := "t0"
    decision := some decisionSample
    executionResult := some { success := true, appliedAt := "t1", details := "ok" }
    completedAt := some "t1" }

/-- A concrete stored state sitting at EXECUTING, as left by the orchestrator. -/
def executingSample : OptimizationState :=
  { id := "opt-9"
    status := OptStatus.EXECUTING
    triggeredAt := "t0"
    decision := some decisionSample
    executionResult := none
    completedAt := none }

/-! ## Decision Engine lemmas -/

theorem fallbackAnalysis_action_ne_empty (input : AnalysisInput) :
    (fallbackAnalysis input).action ≠ "" := by
  simp only [fallbackAnalysis]
  split_ifs <;> exact ne_of_beq_false rfl

theorem fallbackAnalysis_targetWindow_ne_empty (input : AnalysisInput) :
    (fallbackAnalysis input).targetWindow ≠ "" := by
  simp only [fallbackAnalysis]
  split_ifs <;> exact ne_of_beq_false rfl

theorem fallbackAnalysis_source (input : AnalysisInput) :
    (fallbackAnalysis input).source = Source.fallback := by
  simp only [fallbackAnalysis]
  split_ifs <;> rfl

theorem validResponse_action (p : ParsedResponse) (h : validResponse p = true) :
    ∃ s, p.action = some s ∧ s ≠ "" := by
  unfold validResponse at h
  cases hpa : p.action with
  | none => rw [hpa] at h; simp [truthyStr] at h
  | some s =>
    refine ⟨s, rfl, ?_⟩
    rw [hpa] at h
    simp [truthyStr] at h
    exact h.1.1

theorem validResponse_targetWindow (p : ParsedResponse) (h : validResponse p = true) :
    ∃ w, p.targetWindow = some w ∧ w ≠ "" := by
  unfold validResponse at h
  cases hpw : p.targetWindow with
  | none => rw [hpw] at h; simp [truthyStr] at h
  | some w =>
    refine ⟨w, rfl, ?_⟩
    rw [hpw] at h
    simp [truthyStr] at h
    exact h.1.2

theorem validResponse_confidence (p : ParsedResponse) (h : validResponse p = true) :
    ∃ c, p.confidence = some c := by
  unfold validResponse at h
  cases hpc : p.confidence with
  | none => rw [hpc] at h; simp at h
  | some c => exact ⟨c, rfl⟩

/-! ## Claim theorems: Decision Engine -/

/-- Claim C5: for all inputs, the decision function never raises — every
failure of the AI path (absent credential, network error, unparseable or
structurally invalid response) is absorbed, the caller always receives a
decision with a defined (non-empty) action and target window and defined
numeric fields, and the provenance tag is `ai` exactly when the AI path
succeeded and `fallback` otherwise. -/
theorem C5_decide_never_raises_and_provenance (input : AnalysisInput)
    (outcome : GeminiOutcome) :
    (analyzeWithGemini input outcome).action ≠ "" ∧
    (analyzeWithGemini input outcome).targetWindow ≠ "" ∧
    ((analyzeWithGemini input outcome).source = Source.ai ↔ aiPathSucceeded outcome) ∧
    ((analyzeWithGemini input outcome).source = Source.fallback ↔ ¬ aiPathSucceeded outcome) := by
  cases outcome with
  | failure msg =>
    refine ⟨fallbackAnalysis_action_ne_empty input, fallbackAnalysis_targetWindow_ne_empty input, ?_, ?_⟩
    · simp [analyzeWithGemini, fallbackAnalysis_source, aiPathSucceeded]
    · simp [analyzeWithGemini, fallbackAnalysis_source, aiPathSucceeded]
  | response p =>
    by_cases h : validResponse p = true
    · obtain ⟨s, hs, hsne⟩ := validResponse_action p h
      obtain ⟨w, hw, hwne⟩ := validResponse_targetWindow p h
      refine ⟨?_, ?_, ?_, ?_⟩
      · simp [analyzeWithGemini, h, hs, hsne]
      · simp [analyzeWithGemini, h, hw, hwne]
      · simp [analyzeWithGemini, h, aiPathSucceeded]
      · simp [analyzeWithGemini, h, aiPathSucceeded]
    · have hb : validResponse p = false := by
        cases hv : validResponse p
        · rfl
        · exact absurd hv h
      refine ⟨?_, ?_, ?_, ?_⟩
      · simpa [analyzeWithGemini, hb] using fallbackAnalysis_action_ne_empty input
      · simpa [analyzeWithGemini, hb] using fallbackAnalysis_targetWindow_ne_empty input
      · simp [analyzeWithGemini, hb, fallbackAnalysis_source, aiPathSucceeded]
      · simp [analyzeWithGemini, hb, fallbackAnalysis_source, aiPathSucceeded]

/-- Claim C6: the deterministic fallback is exactly the tier table, with
boundary values 20 and 10 belonging to the lower tier, and the reasoning text
referencing the computed excess percentage. Stated on the domain of positive
thresholds, where the rational model of JavaScript division is exact. -/
theorem C6_fallback_tier_table (input : AnalysisInput)
    (hthr : 0 < input.threshold) :
    (20 < excessPercent input →
      fallbackAnalysis input =
        { action := "SHIFT_LOAD"
          targetWindow := "02:00-05:00"
          expectedSavingsPercent := min 25 (excessPercent input)
          confidence := 85/100
          reasoning := "High excess (" ++ toFixed1 (excessPercent input) ++
            "%) - recommending load shift to off-peak hours"
          source := Source.fallback
          model := none }) ∧
    (10 < excessPercent input ∧ excessPercent input ≤ 20 →
      fallbackAnalysis input =
        { action := "REDUCE_CONSUMPTION"
          targetWindow := "18:00-22:00"
          expectedSavingsPercent := min 15 (excessPercent input)
          confidence := 78/100
          reasoning := "Moderate excess (" ++ toFixed1 (excessPercent input) ++
            "%) - recommending consumption reduction during peak"
          source := Source.fallback
          model := none }) ∧
    (excessPercent input ≤ 10 →
      fallbackAnalysis input =
        { action := "OPTIMIZE_SCHEDULING"
          targetWindow := "12:00-16:00"
          expectedSavingsPercent := min 10 (excessPercent input)
          confidence := 72/100
          reasoning := "Minor excess (" ++ toFixed1 (excessPercent input) ++
            "%) - recommending schedule optimization"
          source := Source.fallback
          model := none }) := by
  simp only [fallbackAnalysis]
  refine ⟨?_, ?_, ?_⟩
  · intro hc
    split_ifs <;> first | rfl | (exfalso; linarith)
  · rintro ⟨hc1, hc2⟩
    split_ifs <;> first | rfl | (exfalso; linarith)
  · intro hc
    split_ifs <;> first | rfl | (exfalso; linarith)

/-- Witness for C6: threshold 100, excess 50 (Scenario B) lies in the top
tier and yields SHIFT_LOAD with savings capped at 25. -/
theorem C6_fallback_tier_table_witness :
    0 < (AnalysisInput.mk 150 100 50 "2025-01-01").threshold ∧
    (fallbackAnalysis (AnalysisInput.mk 150 100 50 "2025-01-01")).action = "SHIFT_LOAD" ∧
    (fallbackAnalysis (AnalysisInput.mk 150 100 50 "2025-01-01")).expectedSavingsPercent = 25 := by
  have h := (C6_fallback_tier_table (AnalysisInput.mk 150 100 50 "2025-01-01")
    (by norm_num)).1 (by norm_num [excessPercent])
  refine ⟨by norm_num, ?_, ?_⟩
  · rw [h]
  · rw [h]
    show min 25 (excessPercent (AnalysisInput.mk 150 100 50 "2025-01-01")) = 25
    norm_num [excessPercent]

/-- Claim C7 as stated: acceptance of an AI response would require a known
action and a confidence already inside the unit interval. The code only checks
field presence: the response below carries the unknown action
"NOT_AN_ACTION" and confidence 5, passes validation, and is tagged `ai`. -/
theorem C7_counterexample :
    validResponse (ParsedResponse.mk (some "NOT_AN_ACTION") (some "00:00-01:00")
      (some 50) (some 5) none) = true ∧
    (analyzeWithGemini (AnalysisInput.mk 150 100 50 "2025-01-01")
      (GeminiOutcome.response (ParsedResponse.mk (some "NOT_AN_ACTION")
        (some "00:00-01:00") (some 50) (some 5) none))).source = Source.ai ∧
    (analyzeWithGemini (AnalysisInput.mk 150 100 50 "2025-01-01")
      (GeminiOutcome.response (ParsedResponse.mk (some "NOT_AN_ACTION")
        (some "00:00-01:00") (some 50) (some 5) none))).action = "NOT_AN_ACTION" ∧
    ¬ knownAction "NOT_AN_ACTION" ∧
    ¬ ((5 : ℚ) ≤ 1) := by
  refine ⟨by decide, by decide, by decide, by decide, by norm_num⟩

/-- Claim C7 amended: on a successful AI call the code validates only the
presence of the fields (a truthy action string, a truthy window string, a
defined confidence) — not membership of the action in the known set nor a
confidence in [0,1]; it clamps expectedSavingsPercent into [0,30] and
confidence into [0,1] (returning an in-range confidence unchanged), tags the
result `ai`, and any response failing the presence checks triggers the
fallback instead. -/
theorem C7_presence_validation_and_clamping (input : AnalysisInput)
    (p : ParsedResponse) :
    (validResponse p = true →
      (analyzeWithGemini input (GeminiOutcome.response p)).source = Source.ai ∧
      0 ≤ (analyzeWithGemini input (GeminiOutcome.response p)).expectedSavingsPercent ∧
      (analyzeWithGemini input (GeminiOutcome.response p)).expectedSavingsPercent ≤ 30 ∧
      0 ≤ (analyzeWithGemini input (GeminiOutcome.response p)).confidence ∧
      (analyzeWithGemini input (GeminiOutcome.response p)).confidence ≤ 1 ∧
      (∃ s, p.action = some s ∧ s ≠ "" ∧
        (analyzeWithGemini input (GeminiOutcome.response p)).action = s) ∧
      (∃ w, p.targetWindow = some w ∧ w ≠ "" ∧
        (analyzeWithGemini input (GeminiOutcome.response p)).targetWindow = w) ∧
      (∀ c, p.confidence = some c → 0 ≤ c → c ≤ 1 →
        (analyzeWithGemini input (GeminiOutcome.response p)).confidence = c)) ∧
    (validResponse p = false →
      analyzeWithGemini input (GeminiOutcome.response p) = fallbackAnalysis input) := by
  constructor
  · intro h
    obtain ⟨s, hs, hsne⟩ := validResponse_action p h
    obtain ⟨w, hw, hwne⟩ := validResponse_targetWindow p h
    refine ⟨?_, ?_, ?_, ?_, ?_, ⟨s, hs, hsne, ?_⟩, ⟨w, hw, hwne, ?_⟩, ?_⟩
    · simp [analyzeWithGemini, h]
    · simp only [analyzeWithGemini, h, if_true]
      exact le_min (by norm_num) (le_max_left 0 _)
    · simp only [analyzeWithGemini, h, if_true]
      exact min_le_left 30 _
    · simp only [analyzeWithGemini, h, if_true]
      exact le_min (by norm_num) (le_max_left 0 _)
    · simp only [analyzeWithGemini, h, if_true]
      exact min_le_left 1 _
    · simp [analyzeWithGemini, h, hs]
    · simp [analyzeWithGemini, h, hw]
    · intro c hc hc0 hc1
      simp only [analyzeWithGemini, h, if_true, hc, Option.getD_some]
      rw [max_eq_right hc0, min_eq_right hc1]
  · intro h
    simp [analyzeWithGemini, h]

/-- Claim C2 as stated: in every execution of the aggregator that emits, the
guard flag would be written to the store before the emission. In the code the
`emit` happens first and the guard write second: the concrete breach trace
below emits at position 1 and only sets the guard at position 2. -/
theorem C2_counterexample :
    emissionsOf (processReading (freshStore none)
      (SensorInput.mk "sensor-1" 150 "kWh" "energy" "2025-01-01T10:00:00Z" "2025-01-01")
      5 "t1") ≠ [] ∧
    ¬ guardSetBeforeEmit (processReading (freshStore none)
      (SensorInput.mk "sensor-1" 150 "kWh" "energy" "2025-01-01T10:00:00Z" "2025-01-01")
      5 "t1") := by
  constructor
  · norm_num [processReading, updateUsage, initUsage, freshStore, effectiveThresholds,
      guardTruthy, emissionsOf, DEFAULT_THRESHOLDS]
  · intro hcl
    obtain ⟨idx, hlt, hget⟩ := hcl 1
      (OptimizationRequired.mk "opt-2025-01-01-5" "2025-01-01" 150 100 50 "t1")
      (by
        norm_num [processReading, updateUsage, initUsage, freshStore, effectiveThresholds,
          guardTruthy, DEFAULT_THRESHOLDS]
        rfl)
    have h0 : idx = 0 := Nat.lt_one_iff.mp hlt
    subst h0
    norm_num [processReading, updateUsage, initUsage, freshStore, effectiveThresholds,
      guardTruthy, DEFAULT_THRESHOLDS] at hget
    exact AggOp.noConfusion hget

/-- Claim C2 amended: in every execution of the aggregator handler that emits,
the guard was observed unset beforehand, and the guard flag is written to the
store after the emission but within the same handler invocation, so the store
visible to the next invocation has the guard set. -/
theorem C2_guard_set_after_emit_same_invocation (s : AggStore) (i : SensorInput)
    (c : Clock) (h : stepEmits s i c ≠ []) :
    guardTruthy s = false ∧
    guardTruthy (stepStore s i c) = true ∧
    ∃ e j k, j < k ∧
      (processReading s i c.nowMs c.nowIso).get? j =
        some (AggOp.emitOptimizationRequired e) ∧
      (processReading s i c.nowMs c.nowIso).get? k = some (AggOp.setGuard true) := by
  simp only [stepEmits, stepStore, processReading] at h ⊢
  split_ifs at h ⊢ with hex hg
  · exact absurd rfl h
  · exact ⟨Bool.eq_false_iff.mpr hg, rfl, _, 1, 2, Nat.one_lt_two, rfl, rfl⟩
  · exact absurd rfl h

/-- Witness for C2 amended: a fresh day with a single 150 kWh reading against
the default 100 kWh threshold emits once; the guard is unset before and set
after the invocation. -/
theorem C2_guard_set_after_emit_same_invocation_witness :
    guardTruthy (freshStore none) = false ∧
    guardTruthy (stepStore (freshStore none)
      (SensorInput.mk "sensor-1" 150 "kWh" "energy" "2025-01-01T10:00:00Z" "2025-01-01")
      (Clock.mk 5 "t1")) = true := by
  have h := C2_guard_set_after_emit_same_invocation (freshStore none)
    (SensorInput.mk "sensor-1" 150 "kWh" "energy" "2025-01-01T10:00:00Z" "2025-01-01")
    (Clock.mk 5 "t1")
    (by
      norm_num [stepEmits, processReading, updateUsage, initUsage, freshStore,
        effectiveThresholds, guardTruthy, emissionsOf, DEFAULT_THRESHOLDS])
  exact ⟨h.1, h.2.1⟩

/-- Claim C9: the breach check is strict — an emission happens only when the
new total strictly exceeds the effective daily maximum, an emitted event
carries `excessAmount = totalConsumption - dailyMax` (strictly positive) and
the observed total and threshold, and an exactly-equal total emits nothing. -/
theorem C9_strict_breach (s : AggStore) (i : SensorInput) (c : Clock) :
    (∀ e ∈ stepEmits s i c,
      (updateUsage (s.dailyUsage.getD (initUsage i.date)) i.value).totalConsumption >
        (effectiveThresholds s).dailyMax ∧
      e.excessAmount =
        (updateUsage (s.dailyUsage.getD (initUsage i.date)) i.value).totalConsumption -
          (effectiveThresholds s).dailyMax ∧
      0 < e.excessAmount ∧
      e.totalConsumption =
        (updateUsage (s.dailyUsage.getD (initUsage i.date)) i.value).totalConsumption ∧
      e.threshold = (effectiveThresholds s).dailyMax) ∧
    ((updateUsage (s.dailyUsage.getD (initUsage i.date)) i.value).totalConsumption =
        (effectiveThresholds s).dailyMax → stepEmits s i c = []) := by
  simp only [stepEmits, processReading]
  split_ifs with hex hg
  · constructor
    · intro e he
      simp [emissionsOf] at he
    · intro _
      rfl
  · constructor
    · intro e he
      simp only [emissionsOf, List.mem_singleton] at he
      subst he
      exact ⟨hex, rfl, sub_pos.mpr hex, rfl, rfl⟩
    · intro heq
      exact absurd (heq ▸ hex) (lt_irrefl _)
  · constructor
    · intro e he
      simp [emissionsOf] at he
    · intro _
      rfl

/-- Witness for C9: readings summing exactly to the default threshold emit
nothing (Scenario A), and a single 150 kWh reading emits an event with a
strictly positive excess of 50. -/
theorem C9_strict_breach_witness :
    stepEmits (freshStore none)
      (SensorInput.mk "s1" 100 "kWh" "energy" "t" "2025-01-01") (Clock.mk 7 "t1") = [] ∧
    0 < (OptimizationRequired.mk "opt-2025-01-01-7" "2025-01-01" 150 100 50 "t1").excessAmount := by
  constructor
  · exact (C9_strict_breach (freshStore none)
      (SensorInput.mk "s1" 100 "kWh" "energy" "t" "2025-01-01") (Clock.mk 7 "t1")).2
      (by norm_num [updateUsage, initUsage, freshStore, effectiveThresholds,
        DEFAULT_THRESHOLDS])
  · exact ((C9_strict_breach (freshStore none)
      (SensorInput.mk "s1" 150 "kWh" "energy" "t" "2025-01-01") (Clock.mk 7 "t1")).1
      (OptimizationRequired.mk "opt-2025-01-01-7" "2025-01-01" 150 100 50 "t1")
      (by
        norm_num [stepEmits, processReading, updateUsage, initUsage, freshStore,
          effectiveThresholds, guardTruthy, emissionsOf, DEFAULT_THRESHOLDS]
        rfl)).2.2.1

/-! ## Aggregate-arithmetic lemmas for the daily usage record -/

theorem stepStore_dailyUsage (s : AggStore) (i : SensorInput) (c : Clock) :
    (stepStore s i c).dailyUsage =
      some (updateUsage (s.dailyUsage.getD (initUsage i.date)) i.value) := by
  simp only [stepStore, processReading]
  split_ifs <;> rfl

theorem runStore_dailyUsage (items : List (SensorInput × Clock)) :
    ∀ (s : AggStore) (u : DailyUsage), s.dailyUsage = some u →
    (runStore s items).dailyUsage =
      some (items.foldl (fun acc it => updateUsage acc it.1.value) u) := by
  induction items with
  | nil => intro s u h; simpa using h
  | cons it rest ih =>
    intro s u h
    obtain ⟨i, c⟩ := it
    show (runStore (stepStore s i c) rest).dailyUsage = _
    have h1 : (stepStore s i c).dailyUsage = some (updateUsage u i.value) := by
      rw [stepStore_dailyUsage, h]
      rfl
    exact ih (stepStore s i c) (updateUsage u i.value) h1

theorem runStore_dailyUsage_fresh (prefs : Option Thresholds) (i : SensorInput)
    (c : Clock) (rest : List (SensorInput × Clock)) :
    (runStore (freshStore prefs) ((i, c) :: rest)).dailyUsage =
      some ((((i, c) :: rest).map (fun it => it.1.value)).foldl updateUsage
        (initUsage i.date)) := by
  have h1 : (stepStore (freshStore prefs) i c).dailyUsage
      = some (updateUsage (initUsage i.date) i.value) :=
    stepStore_dailyUsage (freshStore prefs) i c
  have h2 := runStore_dailyUsage rest (stepStore (freshStore prefs) i c)
    (updateUsage (initUsage i.date) i.value) h1
  show (runStore (stepStore (freshStore prefs) i c) rest).dailyUsage = _
  rw [h2, List.map_cons, List.foldl_cons, List.foldl_map]

theorem foldl_updateUsage_readings (vs : List ℚ) :
    ∀ u : DailyUsage, (vs.foldl updateUsage u).readings = u.readings ++ vs := by
  induction vs with
  | nil => intro u; simp
  | cons v rest ih =>
    intro u
    rw [List.foldl_cons, ih (updateUsage u v)]
    show (u.readings ++ [v]) ++ rest = u.readings ++ v :: rest
    simp

theorem foldl_updateUsage_last_fields (vs : List ℚ) :
    ∀ u : DailyUsage, vs ≠ [] →
    (vs.foldl updateUsage u).totalConsumption =
      ((vs.foldl updateUsage u).readings).foldl (· + ·) 0 ∧
    (vs.foldl updateUsage u).readingCount = ((vs.foldl updateUsage u).readings).length ∧
    (vs.foldl updateUsage u).avgUsage =
      (vs.foldl updateUsage u).totalConsumption /
        (((vs.foldl updateUsage u).readingCount : ℕ) : ℚ) := by
  induction vs with
  | nil => intro u h; exact absurd rfl h
  | cons v rest ih =>
    intro u _
    cases rest with
    | nil => exact ⟨rfl, rfl, rfl⟩
    | cons v2 rest2 => exact ih (updateUsage u v) (by simp)

theorem foldl_updateUsage_peak (vs : List ℚ) :
    ∀ u : DailyUsage, (vs.foldl updateUsage u).peakUsage = vs.foldl max u.peakUsage := by
  induction vs with
  | nil => intro u; rfl
  | cons v rest ih =>
    intro u
    rw [List.foldl_cons, List.foldl_cons, ih (updateUsage u v)]
    rfl

theorem le_foldl_max (vs : List ℚ) : ∀ a : ℚ, a ≤ vs.foldl max a := by
  induction vs with
  | nil => intro a; exact le_refl a
  | cons v rest ih =>
    intro a
    exact le_trans (le_max_left a v) (ih (max a v))

theorem mem_le_foldl_max (vs : List ℚ) :
    ∀ (a : ℚ) (v : ℚ), v ∈ vs → v ≤ vs.foldl max a := by
  induction vs with
  | nil => intro a v hv; cases hv
  | cons w rest ih =>
    intro a v hv
    rcases List.mem_cons.mp hv with hv | hv
    · subst hv
      exact le_trans (le_max_right a v) (le_foldl_max rest (max a v))
    · exact ih (max a w) v hv

theorem foldl_max_mem (vs : List ℚ) :
    ∀ a : ℚ, vs.foldl max a = a ∨ vs.foldl max a ∈ vs := by
  induction vs with
  | nil => intro a; exact Or.inl rfl
  | cons v rest ih =>
    intro a
    rcases ih (max a v) with h | h
    · rcases max_choice a v with hm | hm
      · exact Or.inl (h.trans hm)
      · exact Or.inr (List.mem_cons.mpr (Or.inl (h.trans hm)))
    · exact Or.inr (List.mem_cons.mpr (Or.inr h))

theorem foldl_max_zero_mem (v0 : ℚ) (tail : List ℚ) (h0 : 0 ≤ v0) :
    (v0 :: tail).foldl max 0 ∈ v0 :: tail := by
  rw [List.foldl_cons, max_eq_right h0]
  rcases foldl_max_mem tail v0 with h | h
  · rw [h]
    exact List.mem_cons_self _ _
  · exact List.mem_cons.mpr (Or.inr h)

theorem foldl_max_zero_le (v0 : ℚ) (tail : List ℚ) (v : ℚ) (hv : v ∈ v0 :: tail) :
    v ≤ (v0 :: tail).foldl max 0 := by
  rw [List.foldl_cons]
  rcases List.mem_cons.mp hv with h | h
  · subst h
    exact le_trans (le_max_right 0 v) (le_foldl_max tail _)
  · exact mem_le_foldl_max tail _ v h

/-- Claim C8: after sequentially processing any non-empty sequence of
(upstream-validated, non-negative) readings starting from a fresh day, the
persisted record's totalConsumption is the exact sum of all submitted values,
readingCount is their number, peakUsage is the maximum single reading, and
avgUsage is totalConsumption / readingCount. -/
theorem C8_daily_aggregates (prefs : Option Thresholds)
    (items : List (SensorInput × Clock)) (hne : items ≠ [])
    (hnn : ∀ it ∈ items, 0 ≤ it.1.value) :
    ∃ du, (runStore (freshStore prefs) items).dailyUsage = some du ∧
      du.readings = items.map (fun it => it.1.value) ∧
      du.totalConsumption = (items.map (fun it => it.1.value)).sum ∧
      du.readingCount = items.length ∧
      du.avgUsage = du.totalConsumption / ((du.readingCount : ℕ) : ℚ) ∧
      du.peakUsage ∈ items.map (fun it => it.1.value) ∧
      ∀ v ∈ items.map (fun it => it.1.value), v ≤ du.peakUsage := by
  cases items with
  | nil => exact absurd rfl hne
  | cons it rest =>
    obtain ⟨i, c⟩ := it
    refine ⟨_, runStore_dailyUsage_fresh prefs i c rest, ?_, ?_, ?_, ?_, ?_, ?_⟩
    all_goals
      have hreads := foldl_updateUsage_readings
        ((((i, c) :: rest).map (fun it => it.1.value))) (initUsage i.date)
      have hfields := foldl_updateUsage_last_fields
        ((((i, c) :: rest).map (fun it => it.1.value))) (initUsage i.date) (by simp)
      have hpeak := foldl_updateUsage_peak
        ((((i, c) :: rest).map (fun it => it.1.value))) (initUsage i.date)
      rw [show (initUsage i.date).readings = [] from rfl, List.nil_append] at hreads
      rw [show (initUsage i.date).peakUsage = (0 : ℚ) from rfl] at hpeak
    · exact hreads
    · rw [hfields.1, hreads, List.sum_eq_foldl]
    · rw [hfields.2.1, hreads, List.length_map]
    · exact hfields.2.2
    · -- the running maximum starts at 0 and, with non-negative values,
      -- coincides with the maximum submitted reading
      rw [hpeak, List.map_cons]
      exact foldl_max_zero_mem _ _ (hnn (i, c) (List.mem_cons_self _ _))
    · intro v hv
      rw [List.map_cons] at hv
      rw [hpeak, List.map_cons]
      exact foldl_max_zero_le _ _ v hv

/-- Witness for C8: two readings of 20 and 30 on a fresh day yield total 50,
count 2, peak 30 and average 25. -/
theorem C8_daily_aggregates_witness :
    ((runStore (freshStore none)
      [(SensorInput.mk "s1" 20 "kWh" "energy" "t1" "2025-01-01", Clock.mk 1 "a"),
       (SensorInput.mk "s2" 30 "kWh" "energy" "t2" "2025-01-01", Clock.mk 2 "b")]).dailyUsage.map
        DailyUsage.totalConsumption) = some 50 ∧
    ((runStore (freshStore none)
      [(SensorInput.mk "s1" 20 "kWh" "energy" "t1" "2025-01-01", Clock.mk 1 "a"),
       (SensorInput.mk "s2" 30 "kWh" "energy" "t2" "2025-01-01", Clock.mk 2 "b")]).dailyUsage.map
        DailyUsage.readingCount) = some 2 := by
  obtain ⟨du, hdu, _, htot, hcnt, _, _, _⟩ := C8_daily_aggregates none
    [(SensorInput.mk "s1" 20 "kWh" "energy" "t1" "2025-01-01", Clock.mk 1 "a"),
     (SensorInput.mk "s2" 30 "kWh" "energy" "t2" "2025-01-01", Clock.mk 2 "b")]
    (by simp) (by norm_num)
  rw [hdu]
  constructor
  · rw [Option.map_some', htot]
    norm_num
  · rw [Option.map_some', hcnt]
    rfl

/-- Witness for C7 amended: a well-formed response with confidence 1/2 is
accepted, tagged `ai`, and its confidence is returned unchanged. -/
theorem C7_presence_validation_and_clamping_witness :
    (analyzeWithGemini (AnalysisInput.mk 150 100 50 "2025-01-01")
      (GeminiOutcome.response (ParsedResponse.mk (some "SHIFT_LOAD")
        (some "02:00-05:00") (some 12) (some (1/2)) (some "r")))).source = Source.ai ∧
    (analyzeWithGemini (AnalysisInput.mk 150 100 50 "2025-01-01")
      (GeminiOutcome.response (ParsedResponse.mk (some "SHIFT_LOAD")
        (some "02:00-05:00") (some 12) (some (1/2)) (some "r")))).confidence = 1/2 := by
  have h := (C7_presence_validation_and_clamping (AnalysisInput.mk 150 100 50 "2025-01-01")
    (ParsedResponse.mk (some "SHIFT_LOAD") (some "02:00-05:00") (some 12)
      (some (1/2)) (some "r"))).1 (by decide)
  exact ⟨h.1, h.2.2.2.2.2.2.2 (1/2) rfl (by norm_num) (by norm_num)⟩

/-! ## Aggregator lemmas -/

theorem stepEmits_cases (s : AggStore) (i : SensorInput) (c : Clock) :
    (stepEmits s i c = [] ∧
      guardTruthy (stepStore s i c) = guardTruthy s) ∨
    (∃ e, stepEmits s i c = [e] ∧ guardTruthy s = false ∧
      guardTruthy (stepStore s i c) = true) := by
  simp only [stepEmits, stepStore, processReading]
  split_ifs with hex hg
  · exact Or.inl ⟨rfl, rfl⟩
  · refine Or.inr ⟨_, rfl, ?_, rfl⟩
    exact Bool.eq_false_iff.mpr hg
  · exact Or.inl ⟨rfl, rfl⟩

theorem runEmits_nil_of_guard (items : List (SensorInput × Clock)) :
    ∀ s : AggStore, guardTruthy s = true → runEmits s items = [] := by
  induction items with
  | nil => intro s _; rfl
  | cons it rest ih =>
    intro s hg
    obtain ⟨i, c⟩ := it
    rcases stepEmits_cases s i c with ⟨h0, hpres⟩ | ⟨e, _, hfalse, _⟩
    · show stepEmits s i c ++ runEmits (stepStore s i c) rest = []
      rw [h0, ih (stepStore s i c) (hpres.trans hg)]
      rfl
    · rw [hfalse] at hg
      exact absurd hg (by decide)

theorem runEmits_cons (s : AggStore) (i : SensorInput) (c : Clock)
    (rest : List (SensorInput × Clock)) :
    runEmits s ((i, c) :: rest) = stepEmits s i c ++ runEmits (stepStore s i c) rest := rfl

/-! ## Claim theorems: Aggregator -/

/-- Claim C1: for every sequence of readings processed sequentially for the
same date, at most one `optimization.required` event is ever emitted —
regardless of the starting store contents and of how many of the readings
leave the running total above the threshold. -/
theorem C1_at_most_one_emission_per_day (s : AggStore)
    (items : List (SensorInput × Clock)) :
    (runEmits s items).length ≤ 1 := by
  induction items generalizing s with
  | nil => exact Nat.zero_le 1
  | cons it rest ih =>
    obtain ⟨i, c⟩ := it
    rw [runEmits_cons]
    rcases stepEmits_cases s i c with ⟨h0, _⟩ | ⟨e, h1, _, hguard⟩
    · rw [h0]
      exact ih (stepStore s i c)
    · rw [h1, runEmits_nil_of_guard rest (stepStore s i c) hguard]
      exact le_refl 1

/-! ## Claim theorems: lifecycle state machine -/

/-- Claim C3 as stated (quantified over all reachable delivery sequences,
including redeliveries of either triggering event): the write sequence would
always move forward and keep the field-presence invariant. A redelivery of
the same `optimization.required` event after the executor has written
COMPLETED makes the orchestrator rewrite status RECEIVED — a backward
transition out of a terminal state. -/
theorem C3_counterexample :
    ¬ lifecycleOK (runWrites none
      [Delivery.optimizationRequired
        (OptimizationRequired.mk "opt-1" "2025-01-01" 150 100 50 "t0")
        (GeminiOutcome.failure "no credential"),
       Delivery.executionRequested decisionSample (ActuationOutcome.succeeds "t1"),
       Delivery.optimizationRequired
        (OptimizationRequired.mk "opt-1" "2025-01-01" 150 100 50 "t0")
        (GeminiOutcome.failure "no credential")]) := by
  decide

/-- Claim C3 amended: in the single-pass flow — one delivery of
`optimization.required`, followed by at most one delivery of
`execution.requested` (no redeliveries) — every reachable write sequence for
the identifier advances the status forward through
RECEIVED → ANALYZING → DECIDED → EXECUTING → (COMPLETED or FAILED), never
backward and never out of a terminal status, and every written record has
decision present iff the status is DECIDED or later and executionResult and
completedAt present iff the status is terminal. -/
theorem C3_single_pass_lifecycle (req : OptimizationRequired) (ai : GeminiOutcome)
    (d : OptimizationDecision) (outcome : ActuationOutcome) :
    lifecycleOK (runWrites none [Delivery.optimizationRequired req ai]) ∧
    lifecycleOK (runWrites none
      [Delivery.optimizationRequired req ai, Delivery.executionRequested d outcome]) := by
  constructor
  · simp [lifecycleOK, runWrites, deliveryWrites, deliveryStore, orchestratorWrites,
      forwardOK, stepOK, presenceOK, receivedState, analyzingState, decidedState,
      executingState, OptStatus.rank, OptStatus.isTerminal]
  · cases outcome <;>
      simp [lifecycleOK, runWrites, deliveryWrites, deliveryStore, orchestratorWrites,
        forwardOK, stepOK, presenceOK, receivedState, analyzingState, decidedState,
        executingState, executorRun, OptStatus.rank, OptStatus.isTerminal]

/-- Claim C4 as stated: a second executor invocation after COMPLETED would
skip the actuation and leave the stored terminal record unchanged. In the
code the actuation runs again (one attempt in this invocation) and the
stored completedAt is overwritten from "t1" to "t2". -/
theorem C4_counterexample :
    (executorRun (some completedSample) decisionSample
      (ActuationOutcome.succeeds "t2")).actuationAttempts = 1 ∧
    ((executorRun (some completedSample) decisionSample
      (ActuationOutcome.succeeds "t2")).write.map OptimizationState.completedAt) =
      some (some "t2") ∧
    completedSample.completedAt = some "t1" ∧
    ((executorRun (some completedSample) decisionSample
      (ActuationOutcome.succeeds "t2")).write.map OptimizationState.completedAt) ≠
      some completedSample.completedAt := by
  refine ⟨rfl, rfl, rfl, ?_⟩
  intro h
  simp [executorRun, completedSample] at h

/-- Claim C4 amended: re-invoking the executor for an already COMPLETED
optimization re-runs the actuation (one attempt in the new invocation) and
overwrites completedAt and executionResult with the new invocation's values;
it preserves id, triggeredAt and decision and writes status COMPLETED again,
so the status itself does not regress. -/
theorem C4_redelivery_overwrites_terminal (s : OptimizationState)
    (d : OptimizationDecision) (now : String) (h : s.status = OptStatus.COMPLETED) :
    (executorRun (some s) d (ActuationOutcome.succeeds now)).actuationAttempts = 1 ∧
    (executorRun (some s) d (ActuationOutcome.succeeds now)).write =
      some { s with
        status := OptStatus.COMPLETED
        completedAt := some now
        executionResult := some (executeOptimization d now) } ∧
    (∀ w, (executorRun (some s) d (ActuationOutcome.succeeds now)).write = some w →
      w.status = s.status ∧ w.id = s.id ∧ w.triggeredAt = s.triggeredAt ∧
      w.decision = s.decision) := by
  refine ⟨rfl, rfl, ?_⟩
  intro w hw
  simp only [executorRun, Option.map_some', Option.some.injEq] at hw
  subst hw
  exact ⟨h.symm, rfl, rfl, rfl⟩

/-- Witness for C4 amended: the COMPLETED sample state is overwritten with
status COMPLETED again and one actuation attempt occurs. -/
theorem C4_redelivery_overwrites_terminal_witness :
    (executorRun (some completedSample) decisionSample
      (ActuationOutcome.succeeds "t2")).actuationAttempts = 1 ∧
    ((executorRun (some completedSample) decisionSample
      (ActuationOutcome.succeeds "t2")).write.map OptimizationState.status) =
      some OptStatus.COMPLETED := by
  have h := C4_redelivery_overwrites_terminal completedSample decisionSample "t2" rfl
  refine ⟨h.1, ?_⟩
  rw [h.2.1]
  rfl

/-- Claim C10: the executor's terminal write is framed — when a stored state
exists it writes exactly one record that keeps id, triggeredAt and decision
unchanged and only sets status (to a terminal one), completedAt and
executionResult; when no stored state exists it writes no OptimizationState
at all. -/
theorem C10_executor_frame (prev : Option OptimizationState)
    (d : OptimizationDecision) (outcome : ActuationOutcome) :
    (prev = none → (executorRun prev d outcome).write = none) ∧
    (∀ cur, prev = some cur →
      ∃ w, (executorRun prev d outcome).write = some w ∧
        w.id = cur.id ∧ w.triggeredAt = cur.triggeredAt ∧ w.decision = cur.decision ∧
        (w.status = OptStatus.COMPLETED ∨ w.status = OptStatus.FAILED) ∧
        w.completedAt.isSome = true ∧ w.executionResult.isSome = true) := by
  constructor
  · intro h
    subst h
    cases outcome <;> rfl
  · intro cur h
    subst h
    cases outcome with
    | succeeds now => exact ⟨_, rfl, rfl, rfl, rfl, Or.inl rfl, rfl, rfl⟩
    | fails errMsg now => exact ⟨_, rfl, rfl, rfl, rfl, Or.inr rfl, rfl, rfl⟩

/-- Witness for C10: with no stored state the executor writes nothing, and on
a failing actuation over the EXECUTING sample state the written record keeps
the stored id. -/
theorem C10_executor_frame_witness :
    (executorRun none decisionSample (ActuationOutcome.succeeds "t2")).write = none ∧
    ((executorRun (some executingSample) decisionSample
      (ActuationOutcome.fails "boom" "t3")).write.map OptimizationState.id) =
      some "opt-9" := by
  constructor
  · exact (C10_executor_frame none decisionSample (ActuationOutcome.succeeds "t2")).1 rfl
  · obtain ⟨w, hw, hid, _⟩ := (C10_executor_frame (some executingSample) decisionSample
      (ActuationOutcome.fails "boom" "t3")).2 executingSample rfl
    rw [hw, Option.map_some', hid]
    rfl

end StateFlow
